import Mathlib

/-!
Verification development for the Belaynish bot (`src/Index.js`).

The file shallowly embeds the bot's `/ai` command handler, its provider
adapters and its memory store as executable Lean definitions, and proves
the specification's claims about them.  External HTTP calls are modelled
by environment-supplied outcomes (`Option` values: `none` models a
rejected promise / thrown error), mirroring the `try`/`catch` structure
of the source.  JavaScript truthiness of strings and of optional values
is modelled explicitly.
-/

namespace Belaynish

/-- `s.toLowerCase()`: per-character ASCII lowercasing (structural, so
that concrete instances reduce in the kernel). -/
def jsToLower (s : String) : String := ⟨s.data.map Char.toLower⟩

/-- An ASCII whitespace character (the characters `trim` strips in the
inputs this development evaluates). -/
def isWsChar (c : Char) : Bool := c = ' ' || c = '\t' || c = '\n' || c = '\r'

/-- `s.trim()`: strip leading and trailing whitespace. -/
def jsTrim (s : String) : String :=
  ⟨((s.data.dropWhile isWsChar).reverse.dropWhile isWsChar).reverse⟩

/-- Split a character list at every space, keeping empty tokens, exactly
like JavaScript `s.split(' ')`. -/
def splitChars : List Char → List (List Char)
  | [] => [[]]
  | c :: cs =>
      if c = ' ' then [] :: splitChars cs
      else
        match splitChars cs with
        | t :: ts => (c :: t) :: ts
        | [] => [[c]]

/-- `s.split(' ')`. -/
def jsSplitSpace (s : String) : List String :=
  (splitChars s.data).map (fun l => ⟨l⟩)

/-- `l.join(sep)`. -/
def joinBy (sep : String) : List String → String
  | [] => ""
  | [x] => x
  | x :: xs => x ++ sep ++ joinBy sep xs

/-- `l.join(' ')`. -/
def jsJoinSpace (l : List String) : String := joinBy " " l

/-- `s.slice(0, n)`. -/
def jsSlice (n : Nat) (s : String) : String := ⟨s.data.take n⟩

/-- A JSON value, modelling the JavaScript values that upstream HTTP
responses deserialize to (`r.data` in the source). -/
inductive Json where
  | null : Json
  | bool (b : Bool) : Json
  | num (n : Int) : Json
  | str (s : String) : Json
  | arr (xs : List Json) : Json
  | obj (fields : List (String × Json)) : Json

/-- JavaScript truthiness of a JSON value: `null`, `false`, `0` and the
empty string are falsy; every array and object is truthy. -/
def jsonTruthy : Json → Bool
  | .null => false
  | .bool b => b
  | .num n => n != 0
  | .str s => s != ""
  | .arr _ => true
  | .obj _ => true

/-- Field lookup on an object's field list (first match wins, like a JS
object with unique keys). -/
def lookupField : List (String × Json) → String → Option Json
  | [], _ => none
  | (k, v) :: rest, key => if k = key then some v else lookupField rest key

/-- Property access `x.f` / `x?.f`: only objects have fields; on any
other value the access yields `undefined` (modelled as `none`). -/
def getFieldJ : Json → String → Option Json
  | .obj fs, k => lookupField fs k
  | _, _ => none

/-- Indexing `x[0]` in JavaScript: first element of an array, first
character of a nonempty string, field `"0"` of an object, otherwise
`undefined`. -/
def jsIndex0 : Json → Option Json
  | .arr xs => xs.head?
  | .str s => if s = "" then none else some (.str (s.take 1))
  | .obj fs => lookupField fs "0"
  | _ => none

/-- Truthiness of a possibly-`undefined` JSON value. -/
def optTruthyJ : Option Json → Bool
  | none => false
  | some j => jsonTruthy j

/-- Escape one character for a JSON string literal (models the escaping
performed by `JSON.stringify`). -/
def escapeJsonChar (c : Char) : String :=
  if c = '"' then "\\\""
  else if c = '\\' then "\\\\"
  else if c = '\n' then "\\n"
  else if c = '\t' then "\\t"
  else if c = '\r' then "\\r"
  else c.toString

/-- Escape a whole string for a JSON string literal. -/
def escapeJson (s : String) : String :=
  s.toList.foldl (fun acc c => acc ++ escapeJsonChar c) ""

mutual

/-- Models `JSON.stringify` on our JSON values. -/
def stringifyJson : Json → String
  | .null => "null"
  | .bool true => "true"
  | .bool false => "false"
  | .num n => toString n
  | .str s => "\"" ++ escapeJson s ++ "\""
  | .arr xs => "[" ++ stringifyJsonList xs ++ "]"
  | .obj fs => "\x7b" ++ stringifyJsonFields fs ++ "\x7d"

/-- Comma-separated serialization of a list of JSON values. -/
def stringifyJsonList : List Json → String
  | [] => ""
  | [x] => stringifyJson x
  | x :: xs => stringifyJson x ++ "," ++ stringifyJsonList xs

/-- Comma-separated serialization of an object's fields. -/
def stringifyJsonFields : List (String × Json) → String
  | [] => ""
  | [(k, v)] => "\"" ++ escapeJson k ++ "\":" ++ stringifyJson v
  | (k, v) :: fs =>
      "\"" ++ escapeJson k ++ "\":" ++ stringifyJson v ++ "," ++ stringifyJsonFields fs

end

/-- Role of one conversation turn (`role` field in the source's memory
entries). -/
inductive Role where
  | user : Role
  | assistant : Role
deriving DecidableEq

/-- One conversation turn, `{ role, content }` in the source. -/
structure Turn where
  role : Role
  content : String
deriving DecidableEq

/-- A conversation history: the ordered list of turns stored per chat. -/
abbrev History := List Turn

/-- String form of a role, as used by `contextStr` and by the JSON
encoding of the memory. -/
def roleString : Role → String
  | .user => "user"
  | .assistant => "assistant"

/-- JSON encoding of one turn (the shape `JSON.stringify` produces for a
memory entry `{ role, content }`). -/
def turnToJson (t : Turn) : Json :=
  .obj [("role", .str (roleString t.role)), ("content", .str t.content)]

/-- JSON encoding of a whole history (what `saveMemory` serializes). -/
def historyToJson (h : History) : Json :=
  .arr (h.map turnToJson)

/-- Decode a role string. -/
def jsonToRole : Json → Option Role
  | .str s => if s = "user" then some .user
              else if s = "assistant" then some .assistant
              else none
  | _ => none

/-- Decode one turn from its JSON encoding; any other shape yields
`none`.  (The source's `JSON.parse` performs no shape validation; only
values written by `saveMemory` are ever read back, and those have
exactly this shape.) -/
def jsonToTurn : Json → Option Turn
  | .obj [("role", r), ("content", .str c)] =>
      (jsonToRole r).map (fun ρ => ⟨ρ, c⟩)
  | _ => none

/-- Decode a list of turns; fails if any element fails. -/
def jsonTurnsToHistory : List Json → Option History
  | [] => some []
  | x :: xs =>
      match jsonToTurn x, jsonTurnsToHistory xs with
      | some t, some r => some (t :: r)
      | _, _ => none

/-- Decode a whole history (models `JSON.parse` of a stored value). -/
def jsonToHistory : Json → Option History
  | .arr xs => jsonTurnsToHistory xs
  | _ => none

/-! ### Memory store (`getMemory` / `saveMemory`, lines 31-74)

The durable Redis backend and the in-process `NodeCache` are modelled as
association lists from key to value plus an absolute expiry instant; a
logical clock `now : Nat` stands for wall-clock seconds.  Whether a
given Redis operation succeeds or fails operationally is supplied per
call (`RedisHealth`), modelling the thrown/resolved outcome of the
`redis.get` / `redis.set` promises. -/

/-- Outcome of attempting one Redis operation: the backend is reachable
(`up`) or the operation throws (`down`). -/
inductive RedisHealth where
  | up : RedisHealth
  | down : RedisHealth
deriving DecidableEq

/-- State of the memory component: the one-way `usingRedis` flag, the
Redis backend's contents, and the `NodeCache` contents. -/
structure MemState where
  usingRedis : Bool
  redis : List (String × Json × Nat)
  cache : List (String × History × Nat)

/-- Lookup in a keyed store with expiry instants (first match wins). -/
def storeLookup {α : Type} : List (String × α × Nat) → String → Option (α × Nat)
  | [], _ => none
  | (k, v, t) :: rest, key => if k = key then some (v, t) else storeLookup rest key

/-- Write to a keyed store, replacing any previous entry for the key and
setting the expiry instant. -/
def storeSet {α : Type} (s : List (String × α × Nat)) (key : String) (v : α)
    (exp : Nat) : List (String × α × Nat) :=
  (key, v, exp) :: s.filter (fun e => e.1 != key)

/-- Redis `GET` at time `now`: a value is visible while `now` is before
its expiry instant (`SET ... EX ttl` stores expiry `now + ttl`). -/
def redisGetAt (s : List (String × Json × Nat)) (now : Nat) (key : String) :
    Option Json :=
  match storeLookup s key with
  | some (v, exp) => if now < exp then some v else none
  | none => none

/-- `NodeCache.get` at time `now` (entries expire after `stdTTL`). -/
def cacheGetAt (s : List (String × History × Nat)) (now : Nat) (key : String) :
    Option History :=
  match storeLookup s key with
  | some (v, exp) => if now < exp then some v else none
  | none => none

/-- The memory key for a chat, `` `memory:${chatId}` ``. -/
def memKey (chatId : String) : String := "memory:" ++ chatId

/-- `getMemory(chatId)` (lines 49-61).  Returns the history, the updated
state, and whether the durable store was attempted.  A failing Redis
`get` clears `usingRedis` and falls through to the cache; when demoted
the durable store is not consulted at all. -/
def getMemory (st : MemState) (now : Nat) (health : RedisHealth)
    (chatId : String) : History × MemState × Bool :=
  let key := memKey chatId
  if st.usingRedis then
    match health with
    | .up =>
        match redisGetAt st.redis now key with
        | some v => ((jsonToHistory v).getD [], st, true)
        | none => ([], st, true)
    | .down =>
        let st1 := { st with usingRedis := false }
        ((cacheGetAt st1.cache now key).getD [], st1, true)
  else
    ((cacheGetAt st.cache now key).getD [], st, false)

/-- `saveMemory(chatId, history)` (lines 62-74).  Returns the updated
state and whether the durable store was attempted.  On Redis success the
cache is not written (the source returns early); on Redis failure the
component demotes itself and writes the cache. -/
def saveMemory (st : MemState) (now : Nat) (health : RedisHealth)
    (chatId : String) (h : History) (ttl : Nat) : MemState × Bool :=
  let key := memKey chatId
  if st.usingRedis then
    match health with
    | .up => ({ st with redis := storeSet st.redis key (historyToJson h) (now + ttl) }, true)
    | .down =>
        ({ usingRedis := false, redis := st.redis,
           cache := storeSet st.cache key h (now + ttl) }, true)
  else
    ({ st with cache := storeSet st.cache key h (now + ttl) }, false)

/-- One memory-store operation, with its instant and the Redis outcome
that call would observe. -/
inductive MemOp where
  | get (now : Nat) (chatId : String) (health : RedisHealth) : MemOp
  | put (now : Nat) (chatId : String) (health : RedisHealth) (h : History) : MemOp
deriving DecidableEq

/-- The Redis outcome an operation would observe. -/
def MemOp.health : MemOp → RedisHealth
  | .get _ _ he => he
  | .put _ _ he _ => he

/-- Run one operation; result is the new state and whether the durable
store was attempted. -/
def memStep (ttl : Nat) (st : MemState) : MemOp → MemState × Bool
  | .get now id health => ((getMemory st now health id).2.1, (getMemory st now health id).2.2)
  | .put now id health h => saveMemory st now health id h ttl

/-- Run a sequence of operations, collecting for each whether the
durable store was attempted. -/
def memRun (ttl : Nat) (st : MemState) : List MemOp → List Bool
  | [] => []
  | op :: ops =>
      (memStep ttl st op).2 :: memRun ttl (memStep ttl st op).1 ops

/-! ### Request environment and provider adapters

One `/ai` request invokes each external HTTP endpoint at most once, so
the outcome of every such call is supplied up front in an `Env`:
`none` models a rejected promise (network error, timeout, non-2xx,
missing upstream data), `some v` a resolved one.  `vars` models
`process.env`. -/

/-- The typed projection of a Replicate prediction response used by the
source: its `output` array (absent when `undefined`) and `status`. -/
structure RepResp where
  output : Option (List String)
  status : Option String
deriving DecidableEq

/-- The environment of one `/ai` request: configuration (`process.env`)
plus the outcome each external call would have if invoked.
`wikiAnswer` / `duckAnswer` are the resolved values of
`wikiSummary(...)` / `duckDuck(...)` (`none` models a rejection, which
the chat branch maps to `null` via `.catch`).  `priorMem` is the
history `getMemory(ctx.from.id)` returns for this request, and
`memoryTtl` is `MEMORY_TTL`. -/
structure Env where
  vars : List (String × String)
  hfSpaceResult : Option String
  hfApiResult : Option String
  replicateChatResult : Option RepResp
  wikiAnswer : Option String
  duckAnswer : Option String
  translateResult : Option String
  elevenOk : Bool
  replicateTTSResult : Option RepResp
  runwayResult : Option RepResp
  replicateMediaResult : Option RepResp
  replicateDirectResult : Option RepResp
  runwayErrMsg : String
  replicateErrMsg : String
  errMsg : String
  priorMem : History
  memoryTtl : Nat

/-- `process.env[k]`: the configured value of a variable, or `none` when
unset. -/
def getVar (e : Env) (k : String) : Option String :=
  e.vars.lookup k

/-- JavaScript truthiness of a possibly-`undefined` string: `undefined`
and `""` are falsy. -/
def truthy : Option String → Bool
  | none => false
  | some s => s != ""

/-- JavaScript `a || b` on possibly-`undefined` strings. -/
def jsOr (a b : Option String) : Option String :=
  if truthy a then a else b

/-- `HF_MODEL_MAP` (lines 207-215): model-key to model-URL mapping built
from environment variables with `||` fallbacks; any other key reads an
absent object property. -/
def hfModelMap (e : Env) : String → Option String
  | "llama2" => jsOr (getVar e "MODEL_LLAMA2") (jsOr (getVar e "HF_URL") (getVar e "HF_MODEL"))
  | "mistral" => jsOr (getVar e "MODEL_MISTRAL") (getVar e "HF_URL")
  | "flan_t5" => jsOr (getVar e "MODEL_FLAN_T5") (getVar e "HF_URL")
  | "falcon" => jsOr (getVar e "MODEL_FALCON") (getVar e "HF_URL")
  | "gpt2" => jsOr (getVar e "MODEL_GPT2") (getVar e "HF_URL")
  | "bloom" => jsOr (getVar e "MODEL_BLOOM") (getVar e "HF_URL")
  | "default" => jsOr (getVar e "MODEL") (jsOr (getVar e "HF_URL") (getVar e "HF_MODEL"))
  | _ => none

/-- The environment-variable name holding the Replicate chat model for a
model key (lines 300-306): the literal lookup object with its
`REPLICATE_CHAT_MODEL_GPT5` default. -/
def repKeyName : String → String
  | "llama2" => "REPLICATE_CHAT_MODEL_LLAMA2"
  | "gpt5" => "REPLICATE_CHAT_MODEL_GPT5"
  | "gpt4" => "REPLICATE_CHAT_MODEL_GPT4"
  | "gpt35" => "REPLICATE_CHAT_MODEL_GPT35"
  | "mistral" => "REPLICATE_CHAT_MODEL_MISTRAL"
  | _ => "REPLICATE_CHAT_MODEL_GPT5"

/-- `safeFirst(arr)` (lines 81-83) applied to a possibly-`undefined`
array, with the default `null` fallback: first element of a nonempty
array, otherwise `null`. -/
def safeFirst : Option (List String) → Option String
  | some (h :: _) => some h
  | _ => none

/-- `withPrefix` (line 79): the fixed banner every reply carries. -/
def withPrefix (text : String) : String := "Belaynish\n\n" ++ text

/-- Normalization of a Replicate chat response (lines 310-313): first
element of a nonempty `output`, else the "Started replicate job" notice
when `status` is truthy, else nothing (the source leaves `answer`
unchanged); `none` input models a rejected `callReplicate`. -/
def repAnswer : Option RepResp → Option String
  | none => none
  | some r =>
      match r.output with
      | some (h :: _) => some h
      | _ =>
          match r.status with
          | some s =>
              if s != "" then
                some ("Started replicate job (status " ++ s ++ "). Check dashboard.")
              else none
          | none => none

/-- Truthiness of the JS `answer` variable (`null` or a string). -/
def answerTruthy : Option String → Bool
  | none => false
  | some s => s != ""

/-- Response normalization of `callHfApi` (lines 115-120), given the
deserialized response body `r.data`: a string body is returned as is;
else the first recognized field among `r.data[0]?.generated_text`,
`r.data.generated_text`, `r.data.data[0]`; else the `JSON.stringify` of
the body truncated to 4000 characters.  The function is total: once a
response arrives, this code path cannot throw, so it never signals
Failure to its caller. -/
def callHfApi (d : Json) : Json :=
  match d with
  | .str s => .str s
  | _ =>
      let f1 : Option Json :=
        match d with
        | .arr _ =>
            match jsIndex0 d with
            | some el => getFieldJ el "generated_text"
            | none => none
        | _ => none
      if optTruthyJ f1 then f1.getD .null
      else
        let f2 := getFieldJ d "generated_text"
        if optTruthyJ f2 then f2.getD .null
        else
          let fd := getFieldJ d "data"
          if optTruthyJ fd && optTruthyJ (jsIndex0 (fd.getD .null)) then
            (jsIndex0 (fd.getD .null)).getD .null
          else .str (jsSlice 4000 (stringifyJson d))

/-- The recognized response shapes of `callHfApi`, stated from the
specification's wording ("string body, generated_text, array
[0].generated_text, data[0]") for comparison with the code path. -/
def hfRecognized (d : Json) : Bool :=
  (match d with | .str _ => true | _ => false) ||
  (match d with
   | .arr _ =>
       optTruthyJ (match jsIndex0 d with
                   | some el => getFieldJ el "generated_text"
                   | none => none)
   | _ => false) ||
  optTruthyJ (getFieldJ d "generated_text") ||
  (optTruthyJ (getFieldJ d "data") &&
   optTruthyJ (jsIndex0 ((getFieldJ d "data").getD .null)))

/-- `translateUnofficial(text, to)` (lines 195-202): the library's
resolved `r.text` on success, the input text unchanged when the library
rejects. -/
def translateUnofficial (libResult : Option String) (text : String)
    (lang : String) : String :=
  match libResult with
  | some t => t
  | none => text

/-! ### The chat resolution (lines 270-329) -/

/-- `contextStr` (line 274): the concatenated transcript handed to the
text-generation adapters. -/
def contextString (mem : History) : String :=
  joinBy "\n" (mem.map (fun m => roleString m.role ++ ": " ++ m.content))

/-- An invocation of one external provider, recording the input it was
given.  `webSynth` is the synthesized wiki+duck web answer of the chat
fallback (one `wikiSummary` and one `duckDuck` call on the prompt). -/
inductive Call where
  | hfSpace (input : String) : Call
  | hfApi (input : String) : Call
  | replicateChat (input : String) : Call
  | webSynth (input : String) : Call
  | wikiLookup (q : String) : Call
  | duckLookup (q : String) : Call
  | translateCall (text : String) (lang : String) : Call
  | elevenTTS (text : String) : Call
  | replicateTTS (text : String) : Call
  | runwayCall (sub : String) (payload : String) : Call
  | replicateMedia (sub : String) (payload : String) : Call
  | replicateDirect (model : String) (promptText : String) : Call
deriving DecidableEq

/-- Chat step 1 (lines 277-284): try the HF Space when `HF_SPACE_URL` is
truthy; a rejection leaves `answer` at `null`. -/
def chatStep1 (e : Env) (ctx : String) : Option String × List Call :=
  if truthy (getVar e "HF_SPACE_URL") then (e.hfSpaceResult, [.hfSpace ctx])
  else (none, [])

/-- Chat step 2 (lines 285-295): when `answer` is falsy and both the
model URL and `HUGGINGFACE_API_KEY` are truthy, call the HF API; a
rejection keeps the previous `answer`. -/
def chatStep2 (e : Env) (ctx modelKey : String)
    (prev : Option String × List Call) : Option String × List Call :=
  if answerTruthy prev.1 then prev
  else
    let hfModelUrl := jsOr (hfModelMap e modelKey) (hfModelMap e "default")
    if truthy hfModelUrl && truthy (getVar e "HUGGINGFACE_API_KEY") then
      ((match e.hfApiResult with
        | some s => some s
        | none => prev.1), prev.2 ++ [.hfApi ctx])
    else prev

/-- Chat step 3 (lines 296-317): when `answer` is falsy and
`REPLICATE_API_KEY` is truthy, look up the chat model for the key and,
if set, call Replicate with the bare prompt; normalization per
`repAnswer`. -/
def chatStep3 (e : Env) (modelKey promptStr : String)
    (prev : Option String × List Call) : Option String × List Call :=
  if answerTruthy prev.1 then prev
  else if truthy (getVar e "REPLICATE_API_KEY") then
    if truthy (getVar e (repKeyName modelKey)) then
      ((match repAnswer e.replicateChatResult with
        | some s => some s
        | none => prev.1), prev.2 ++ [.replicateChat promptStr])
    else prev
  else prev

/-- The concatenation of the truthy web-lookup fragments (line 323):
`(wiki ? ... : '') + (ddg ? ... : '')`. -/
def synthText (e : Env) : String :=
  (if truthy e.wikiAnswer then "From Wikipedia: " ++ e.wikiAnswer.getD "" else "")
    ++ (if truthy e.duckAnswer then "\n\nDuck: " ++ e.duckAnswer.getD "" else "")

/-- The synthesized web answer (lines 323-324), with the sentinel when
both fragments are empty. -/
def chatSynth (e : Env) : String :=
  if synthText e = "" then "No provider available to answer this question."
  else synthText e

/-- Chat step 4 (lines 319-325): when `answer` is still falsy,
synthesize a web answer from `wikiSummary` and `duckDuck`; if that is
empty, the sentinel "No provider available" text. -/
def chatStep4 (e : Env) (promptStr : String)
    (prev : Option String × List Call) : String × List Call :=
  if answerTruthy prev.1 then (prev.1.getD "", prev.2)
  else (chatSynth e, prev.2 ++ [.webSynth promptStr])

/-- The chat fallback resolution (lines 276-325): HF Space, then HF API,
then Replicate chat, then the synthesized web answer, each gated on the
previous `answer` being falsy.  Returns the final answer text and the
adapter invocations in order. -/
def chatResolve (e : Env) (modelKey promptStr : String) (mem1 : History) :
    String × List Call :=
  chatStep4 e promptStr
    (chatStep3 e modelKey promptStr
      (chatStep2 e (contextString mem1) modelKey
        (chatStep1 e (contextString mem1))))

/-- Model-key parsing of the chat branch (lines 261-267): the second
token is consumed as the model key exactly when `HF_MODEL_MAP` maps it
to a truthy value; otherwise the default key `llama2` with the whole
rest as prompt. -/
def chatParse (e : Env) (parts : List String) (rest : String) : String × String :=
  let firstToken := match parts.get? 1 with
                    | some s => jsToLower s
                    | none => ""
  if truthy (hfModelMap e firstToken) then
    (firstToken, jsJoinSpace (parts.drop 2))
  else ("llama2", rest)

/-! ### The command router (`bot.command('ai')`, lines 220-455) -/

/-- The reply shape handed to the transport layer: banner-prefixed text,
a voice message (inline buffer or remote URL), a photo or video with a
caption, or a document. -/
inductive Reply where
  | text (s : String) : Reply
  | voiceBuf : Reply
  | voiceUrl (u : String) : Reply
  | photo (u : String) (caption : String) : Reply
  | video (u : String) (caption : String) : Reply
  | document (u : String) : Reply
deriving DecidableEq

/-- The observable outcome of one `/ai` request: the reply, the external
invocations in order, and the history persisted via `saveMemory` (only
the chat branch saves). -/
structure Outcome where
  reply : Reply
  calls : List Call
  saved : Option History
deriving DecidableEq

/-- UTF-16 length of a string, which is what JavaScript's
`String.prototype.length` measures (astral characters count as two
units). -/
def jsLen (s : String) : Nat :=
  s.data.foldl (fun n c => n + (if c.toNat ≥ 65536 then 2 else 1)) 0

/-- The chat branch (lines 259-330): parse an optional model key, bail
out on an empty prompt, push the user turn, resolve through the adapter
chain, push the assistant turn, persist, and reply with the
banner-prefixed answer. -/
def chatBranch (e : Env) (parts : List String) (rest : String) : Outcome :=
  let p := chatParse e parts rest
  if p.2 = "" then
    ⟨.text ( withPrefix "Please provide a prompt for chat."), [], none⟩
  else
    let mem1 := e.priorMem ++ [⟨.user, p.2⟩]
    let r := chatResolve e p.1 p.2 mem1
    ⟨.text ( withPrefix r.1), r.2, some (mem1 ++ [⟨.assistant, r.1⟩])⟩

/-- The translate branch (lines 345-357): a leading token of length at
most 3 is consumed as the target language code when more than one token
is present; otherwise the whole rest is translated to English. -/
def translateBranch (e : Env) (rest : String) : Outcome :=
  let parts2 := jsSplitSpace rest
  if parts2.length > 1 ∧ jsLen (parts2.headD "") ≤ 3 then
    let t := jsJoinSpace (parts2.drop 1)
    let lang := parts2.headD ""
    ⟨.text ( withPrefix (translateUnofficial e.translateResult t lang)),
     [.translateCall t lang], none⟩
  else
    ⟨.text ( withPrefix (translateUnofficial e.translateResult rest "en")),
     [.translateCall rest "en"], none⟩

/-- The TTS branch (lines 360-380): ElevenLabs when configured, then
Replicate TTS when configured, else the fixed "No TTS provider" text.
`e.elevenOk` models `callElevenLabsTTS` resolving with an audio buffer
(false covers both HTTP failure and the throw on an unset
`ELEVENLABS_API_URL`). -/
def ttsBranch (e : Env) (rest : String) : Outcome :=
  let c1 : List Call :=
    if truthy (getVar e "ELEVENLABS_API_KEY") && truthy (getVar e "ELEVENLABS_VOICE_ID") then
      [.elevenTTS rest]
    else []
  if truthy (getVar e "ELEVENLABS_API_KEY") && truthy (getVar e "ELEVENLABS_VOICE_ID")
      && e.elevenOk then
    ⟨.voiceBuf, c1, none⟩
  else if truthy (getVar e "REPLICATE_API_KEY") && truthy (getVar e "REPLICATE_TTS_MODEL") then
    match e.replicateTTSResult with
    | some r =>
        match safeFirst r.output with
        | some out =>
            if out != "" then ⟨.voiceUrl out, c1 ++ [.replicateTTS rest], none⟩
            else ⟨.text ( withPrefix "No TTS provider configured."), c1 ++ [.replicateTTS rest], none⟩
        | none =>
            ⟨.text ( withPrefix "No TTS provider configured."), c1 ++ [.replicateTTS rest], none⟩
    | none =>
        ⟨.text ( withPrefix "No TTS provider configured."), c1 ++ [.replicateTTS rest], none⟩
  else ⟨.text ( withPrefix "No TTS provider configured."), c1, none⟩

/-- The Runway media submodes (line 389). -/
def runwayModes : List String := ["t2i", "t2v", "i2v", "v2v", "upscale", "act"]

/-- The Replicate media submodes (line 390). -/
def repModes : List String := ["flux", "fixface", "caption", "burncaption", "recon3d"]

/-- The media submode: `parts[1]` lowercased, `""` standing for the
`null` of a missing token (both falsy, used only in emptiness and
membership tests). -/
def mediaSub (parts : List String) : String :=
  match parts.get? 1 with
  | some s => jsToLower s
  | none => ""

/-- The media payload: `parts.slice(2).join(' ')`. -/
def mediaPayload (parts : List String) : String :=
  jsJoinSpace (parts.drop 2)

/-- The Runway endpoint environment variable for a submode (lines
394-401). -/
def runwayEndpointVar : String → Option String
  | "t2i" => some "RUNWAY_URL_TEXT_TO_IMAGE"
  | "t2v" => some "RUNWAY_URL_TEXT_TO_VIDEO"
  | "i2v" => some "RUNWAY_URL_IMAGE_TO_VIDEO"
  | "v2v" => some "RUNWAY_URL_VIDEO_TO_VIDEO"
  | "upscale" => some "RUNWAY_URL_VIDEO_UPSCALE"
  | "act" => some "RUNWAY_URL_CHARACTER_PERFORMANCE"
  | _ => none

/-- The Replicate model environment variable for a submode (lines
411-417). -/
def repMediaModelVar : String → Option String
  | "flux" => some "REPLICATE_IMAGE_MODEL"
  | "fixface" => some "REPLICATE_UPSCALE_MODEL"
  | "caption" => some "REPLICATE_VIDEO_CAPTION_MODEL"
  | "burncaption" => some "REPLICATE_VIDEO_CAPTIONED_MODEL"
  | "recon3d" => some "REPLICATE_3D_MODEL"
  | _ => none

/-- The V8 message of the `TypeError` thrown by
`endpoint.replace(...)` when the endpoint variable is unset. -/
def undefinedReplaceMsg : String :=
  "Cannot read properties of undefined (reading \x27replace\x27)"

/-- The media branch (lines 383-431): Runway submodes when
`RUNWAY_API_KEY` is set, Replicate submodes when `REPLICATE_API_KEY`
is set, else the fixed "No provider configured for that media mode."
reply with zero invocations.  Errors thrown inside the branch are
caught and surfaced as a "Media error: " text. -/
def mediaBranch (e : Env) (parts : List String) : Outcome :=
  let sub := mediaSub parts
  let payload := mediaPayload parts
  if sub = "" ∨ payload = "" then
    ⟨.text ( withPrefix "Usage: /ai media <mode> <input>. Type /ai help for modes."), [], none⟩
  else if (sub ∈ runwayModes) ∧ truthy (getVar e "RUNWAY_API_KEY") then
    match (runwayEndpointVar sub).bind (getVar e) with
    | none =>
        ⟨.text ( withPrefix ("Media error: " ++ undefinedReplaceMsg)), [], none⟩
    | some _ =>
        match e.runwayResult with
        | none =>
            ⟨.text ( withPrefix ("Media error: " ++ e.runwayErrMsg)),
             [.runwayCall sub payload], none⟩
        | some r =>
            let out := safeFirst r.output
            if truthy out then
              if sub = "t2i" ∨ sub = "flux" ∨ sub = "fixface" then
                ⟨.photo (out.getD "") ( withPrefix payload), [.runwayCall sub payload], none⟩
              else ⟨.video (out.getD "") ( withPrefix payload), [.runwayCall sub payload], none⟩
            else ⟨.text ( withPrefix "Runway returned no output."), [.runwayCall sub payload], none⟩
  else if (sub ∈ repModes) ∧ truthy (getVar e "REPLICATE_API_KEY") then
    let repModel := (repMediaModelVar sub).bind (getVar e)
    if truthy repModel then
      match e.replicateMediaResult with
      | none =>
          ⟨.text ( withPrefix ("Media error: " ++ e.replicateErrMsg)),
           [.replicateMedia sub payload], none⟩
      | some r =>
          let out := safeFirst r.output
          if truthy out then
            if sub = "flux" ∨ sub = "fixface" then
              ⟨.photo (out.getD "") ( withPrefix payload), [.replicateMedia sub payload], none⟩
            else if sub = "recon3d" then
              ⟨.document (out.getD ""), [.replicateMedia sub payload], none⟩
            else if sub = "caption" then
              ⟨.text ( withPrefix (out.getD "")), [.replicateMedia sub payload], none⟩
            else ⟨.video (out.getD "") ( withPrefix payload), [.replicateMedia sub payload], none⟩
          else ⟨.text ( withPrefix "Replicate returned no output."), [.replicateMedia sub payload], none⟩
    else ⟨.text ( withPrefix "Replicate model not set for this mode."), [], none⟩
  else ⟨.text ( withPrefix "No provider configured for that media mode."), [], none⟩

/-- `JSON.stringify` of a Replicate response as the source's `/ai
replicate` fallback prints it (fields absent when `undefined`). -/
def stringifyRep (r : RepResp) : String :=
  stringifyJson (.obj
    ((match r.output with
      | some l => [("output", Json.arr (l.map Json.str))]
      | none => []) ++
     (match r.status with
      | some s => [("status", Json.str s)]
      | none => [])))

/-- The direct Replicate branch (lines 434-447). -/
def replicateBranch (e : Env) (parts : List String) : Outcome :=
  let repKey := (parts.get? 1).getD ""
  let promptText := jsJoinSpace (parts.drop 2)
  if repKey = "" ∨ promptText = "" then
    ⟨.text ( withPrefix "Usage: /ai replicate <env_model_variable> <prompt>"), [], none⟩
  else
    let repModel := getVar e repKey
    if truthy repModel then
      match e.replicateDirectResult with
      | none =>
          ⟨.text ( withPrefix ("Replicate error: " ++ e.replicateErrMsg)),
           [.replicateDirect (repModel.getD "") promptText], none⟩
      | some r =>
          let out := if truthy (safeFirst r.output) then (safeFirst r.output).getD ""
                     else stringifyRep r
          ⟨.text ( withPrefix out), [.replicateDirect (repModel.getD "") promptText], none⟩
    else
      ⟨.text ( withPrefix ("No replicate model found in env as " ++ repKey)), [], none⟩

/-- The `/ai help` text (lines 235-254), with `MEMORY_TTL`
interpolated. -/
def helpText (e : Env) : String :=
  "\n/ai <mode> <input>\n\nChat (English default):\n  /ai chat [model] <prompt>       -> Chat: model optional (llama2, mistral, flan_t5, falcon). Default llama2\nSearch:\n  /ai wiki <topic>                -> Wikipedia summary\n  /ai duck <query>                -> DuckDuckGo instant answer\nTranslate:\n  /ai translate <text>            -> translate to English (use second arg \x27am\x27 to get Amharic)\nMedia (Runway / Replicate):\n  /ai media <mode> <input>\n    modes: t2i t2v i2v v2v upscale act flux fixface caption burncaption recon3d\nTTS:\n  /ai tts <text>                  -> ElevenLabs or Replicate TTS\nReplicate chat:\n  /ai replicate <modelname> <prompt> -> call replicate chat model as configured\n\nMemory: conversation memory saved ~"
  ++ toString e.memoryTtl ++ " seconds (if Redis configured)\n      "

/-- The dispatcher over the already-split command tokens (everything
after `text.trim().split(' ').slice(1)`), lines 223-450. -/
def aiHandlerParts (e : Env) (parts : List String) : Outcome :=
  if parts = [] then
    ⟨.text ( withPrefix "Usage: /ai <mode> <input>\nModes: chat|wiki|duck|translate|media|tts|replicate"),
     [], none⟩
  else
    let mode := jsToLower (parts.headD "")
    let rest := jsTrim (jsJoinSpace (parts.drop 1))
    if rest = "" ∧ mode ≠ "help" then
      ⟨.text ( withPrefix "Please provide input. Example: /ai chat Explain Newton laws"), [], none⟩
    else if mode = "help" then ⟨.text ( withPrefix (helpText e)), [], none⟩
    else if mode = "chat" then chatBranch e parts rest
    else if mode = "wiki" then
      match e.wikiAnswer with
      | some s => ⟨.text ( withPrefix s), [.wikiLookup rest], none⟩
      | none => ⟨.text ( withPrefix ("Error: " ++ e.errMsg)), [.wikiLookup rest], none⟩
    else if mode = "duck" then
      match e.duckAnswer with
      | some s => ⟨.text ( withPrefix s), [.duckLookup rest], none⟩
      | none => ⟨.text ( withPrefix ("Error: " ++ e.errMsg)), [.duckLookup rest], none⟩
    else if mode = "translate" then translateBranch e rest
    else if mode = "tts" then ttsBranch e rest
    else if mode = "media" then mediaBranch e parts
    else if mode = "replicate" then replicateBranch e parts
    else ⟨.text ( withPrefix "Unknown mode. Type /ai help for usage."), [], none⟩

/-- `text.trim().split(' ').slice(1)` (line 222): the command tokens
after `/ai` (JS `split(' ')` keeps empty tokens from repeated
spaces). -/
def aiParts (msg : String) : List String :=
  (jsSplitSpace (jsTrim msg)).drop 1

/-- The parsed mode keyword: `parts[0].toLowerCase()`. -/
def aiMode (msg : String) : String :=
  jsToLower ((aiParts msg).headD "")

/-- The free-text argument: `parts.slice(1).join(' ').trim()`. -/
def aiRest (msg : String) : String :=
  jsTrim (jsJoinSpace ((aiParts msg).drop 1))

/-- The full `/ai` handler over the raw inbound message text. -/
def aiHandler (e : Env) (msg : String) : Outcome :=
  aiHandlerParts e (aiParts msg)

/-! ### Concrete environments for counterexamples and witnesses -/

/-- An environment with every text-generation provider configured. -/
def baseVars : List (String × String) :=
  [("HF_SPACE_URL", "https://space"), ("HF_URL", "https://hf/models/m"),
   ("HUGGINGFACE_API_KEY", "hfkey"), ("REPLICATE_API_KEY", "repkey"),
   ("REPLICATE_CHAT_MODEL_LLAMA2", "repmodel")]

/-- Environment for the C1 counterexample: the HF Space resolves with the
empty string (a returned result, hence an adapter Success), the HF API
resolves with `"4"`. -/
def envC1 : Env :=
  { vars := baseVars
    hfSpaceResult := some ""
    hfApiResult := some "4"
    replicateChatResult := some ⟨some ["R"], some "succeeded"⟩
    wikiAnswer := some "W", duckAnswer := some "D"
    translateResult := some "T"
    elevenOk := false
    replicateTTSResult := none, runwayResult := none
    replicateMediaResult := none, replicateDirectResult := none
    runwayErrMsg := "err", replicateErrMsg := "err", errMsg := "err"
    priorMem := [], memoryTtl := 10800 }

/-- Environment for the C1 witness: Space and API reject, Replicate
succeeds. -/
def envC1w : Env :=
  { envC1 with hfSpaceResult := none, hfApiResult := none }

/-- Environment for the C6 counterexample and witness: the first two
adapters reject so the Replicate chat adapter is reached. -/
def envC6 : Env :=
  { envC1 with hfSpaceResult := none, hfApiResult := none,
               replicateChatResult := some ⟨some ["R"], some "succeeded"⟩ }

/-- Environment for the C5 witness: everything configured but every
adapter fails, and both web lookups reject. -/
def envC5 : Env :=
  { envC1 with hfSpaceResult := none, hfApiResult := none,
               replicateChatResult := none, wikiAnswer := none, duckAnswer := none }

/-- Environment for the C3 witness: the HF Space answers `"4"` (the
specification's chat happy-path scenario). -/
def envC3 : Env :=
  { envC1 with vars := [("HF_SPACE_URL", "https://space")], hfSpaceResult := some "4" }

/-- Environment for the C9 witness (no provider configured at all). -/
def envC9 : Env :=
  { envC1 with vars := [] }

/-- Environment for the C10 witness: the translation library resolves
with `"T"`. -/
def envC10 : Env :=
  { envC1 with vars := [] }

/-! ### Shared helper lemmas -/

/-- Decoding inverts encoding on a single encoded turn list. -/
theorem jsonTurnsToHistory_map (h : History) :
    jsonTurnsToHistory (h.map turnToJson) = some h := by
  induction h with
  | nil => rfl
  | cons t ts ih =>
      cases t with
      | mk r c =>
          cases r <;>
            simp [jsonTurnsToHistory, jsonToTurn, turnToJson, roleString, jsonToRole, ih]

/-- `JSON.parse` inverts `JSON.stringify` on stored histories. -/
theorem jsonToHistory_historyToJson (h : History) :
    jsonToHistory (historyToJson h) = some h := by
  simp [jsonToHistory, historyToJson, jsonTurnsToHistory_map]

/-- Once demoted, one step neither consults the durable store nor
resurrects the flag. -/
theorem memStep_not_using (ttl : Nat) (st : MemState) (op : MemOp)
    (h : st.usingRedis = false) :
    (memStep ttl st op).1.usingRedis = false ∧ (memStep ttl st op).2 = false := by
  cases op <;> simp [memStep, getMemory, saveMemory, h]

/-- Once demoted, a whole run never attempts the durable store. -/
theorem memRun_not_using (ttl : Nat) (st : MemState) (ops : List MemOp)
    (h : st.usingRedis = false) :
    memRun ttl st ops = List.replicate ops.length false := by
  induction ops generalizing st with
  | nil => simp [memRun]
  | cons op ops ih =>
      have h2 := memStep_not_using ttl st op h
      simp [memRun, h2.2, ih _ h2.1, List.replicate]

/-- A step whose Redis operation fails leaves the component demoted. -/
theorem memStep_down (ttl : Nat) (st : MemState) (op : MemOp)
    (h : op.health = .down) :
    (memStep ttl st op).1.usingRedis = false := by
  cases op <;> simp [MemOp.health] at h <;> subst h <;>
    by_cases hu : st.usingRedis <;> simp [memStep, getMemory, saveMemory, hu]

/-- While the flag is up, a step does attempt the durable store. -/
theorem memStep_attempts (ttl : Nat) (st : MemState) (op : MemOp)
    (h : st.usingRedis = true) :
    (memStep ttl st op).2 = true := by
  cases op with
  | get now id health =>
      cases health <;> simp [memStep, getMemory, h] <;> split <;> rfl
  | put now id health hh => cases health <;> simp [memStep, saveMemory, h]

/-- Step 1 keeps a falsy answer falsy when the Space's outcome is
falsy. -/
theorem chatStep1_falsy (e : Env) (ctx : String)
    (h : answerTruthy e.hfSpaceResult = false) :
    answerTruthy (chatStep1 e ctx).1 = false := by
  unfold chatStep1
  split
  · exact h
  · rfl

/-- Step 2 keeps a falsy answer falsy when the HF API's outcome is
falsy. -/
theorem chatStep2_falsy (e : Env) (ctx mk : String)
    (prev : Option String × List Call) (h : answerTruthy prev.1 = false)
    (ha : answerTruthy e.hfApiResult = false) :
    answerTruthy (chatStep2 e ctx mk prev).1 = false := by
  unfold chatStep2
  simp only [h, Bool.false_eq_true, if_false]
  split
  · cases hr : e.hfApiResult with
    | none => exact h
    | some s => rw [hr] at ha; exact ha
  · exact h

/-- Step 3 keeps a falsy answer falsy when the normalized Replicate
outcome is falsy. -/
theorem chatStep3_falsy (e : Env) (mk p : String)
    (prev : Option String × List Call) (h : answerTruthy prev.1 = false)
    (hr : answerTruthy (repAnswer e.replicateChatResult) = false) :
    answerTruthy (chatStep3 e mk p prev).1 = false := by
  unfold chatStep3
  simp only [h, Bool.false_eq_true, if_false]
  split
  · split
    · cases hx : repAnswer e.replicateChatResult with
      | none => exact h
      | some s => rw [hx] at hr; exact hr
    · exact h
  · exact h

/-- When the answer is still falsy and both web lookups are falsy, step
4 produces the sentinel text. -/
theorem chatStep4_sentinel (e : Env) (p : String)
    (prev : Option String × List Call) (h : answerTruthy prev.1 = false)
    (hw : truthy e.wikiAnswer = false) (hd : truthy e.duckAnswer = false) :
    (chatStep4 e p prev).1 = "No provider available to answer this question." := by
  unfold chatStep4
  simp [h, chatSynth, synthText, hw, hd]

/-- Step 4 never produces the empty string. -/
theorem chatStep4_ne_empty (e : Env) (p : String)
    (prev : Option String × List Call) : (chatStep4 e p prev).1 ≠ "" := by
  unfold chatStep4
  split
  · next htr =>
      cases hp : prev.1 with
      | none => rw [hp] at htr; simp [answerTruthy] at htr
      | some s =>
          rw [hp] at htr
          simp only [answerTruthy, bne_iff_ne, ne_eq] at htr
          simpa [hp] using htr
  · show chatSynth e ≠ ""
    unfold chatSynth
    by_cases hz : synthText e = "" <;> simp [hz]

/-- Step 1 invokes nothing or exactly the Space. -/
theorem chatStep1_calls (e : Env) (ctx : String) :
    (chatStep1 e ctx).2 = [] ∨ (chatStep1 e ctx).2 = [.hfSpace ctx] := by
  unfold chatStep1
  split
  · right; rfl
  · left; rfl

/-- Step 2 appends nothing or exactly the HF API call. -/
theorem chatStep2_calls (e : Env) (ctx mk : String)
    (prev : Option String × List Call) :
    (chatStep2 e ctx mk prev).2 = prev.2 ∨
    (chatStep2 e ctx mk prev).2 = prev.2 ++ [.hfApi ctx] := by
  unfold chatStep2
  split
  · left; rfl
  · by_cases hc : (truthy (jsOr (hfModelMap e mk) (hfModelMap e "default"))
        && truthy (getVar e "HUGGINGFACE_API_KEY")) = true
    · right; simp [hc]
    · left; simp [hc]

/-- Step 3 appends nothing or exactly the Replicate chat call. -/
theorem chatStep3_calls (e : Env) (mk p : String)
    (prev : Option String × List Call) :
    (chatStep3 e mk p prev).2 = prev.2 ∨
    (chatStep3 e mk p prev).2 = prev.2 ++ [.replicateChat p] := by
  unfold chatStep3
  split
  · left; rfl
  · by_cases h1 : truthy (getVar e "REPLICATE_API_KEY") = true
    · by_cases h2 : truthy (getVar e (repKeyName mk)) = true
      · right; simp [h1, h2]
      · left; simp [h1, h2]
    · left; simp [h1]

/-- Step 4 appends nothing or exactly the web-synthesis call. -/
theorem chatStep4_calls (e : Env) (p : String)
    (prev : Option String × List Call) :
    (chatStep4 e p prev).2 = prev.2 ∨
    (chatStep4 e p prev).2 = prev.2 ++ [.webSynth p] := by
  unfold chatStep4
  split
  · left; rfl
  · right; rfl

/-- Every invocation a chat resolution makes is one of the four
adapters, with its specific input: the Space and the HF API get the
concatenated transcript, Replicate and the web synthesis get the bare
prompt. -/
theorem chatResolve_calls_mem (e : Env) (mk p : String) (mem1 : History) :
    ∀ c ∈ (chatResolve e mk p mem1).2,
      c = Call.hfSpace (contextString mem1) ∨ c = Call.hfApi (contextString mem1) ∨
      c = Call.replicateChat p ∨ c = Call.webSynth p := by
  intro c hc
  unfold chatResolve at hc
  rcases chatStep4_calls e p
      (chatStep3 e mk p (chatStep2 e (contextString mem1) mk
        (chatStep1 e (contextString mem1)))) with h4 | h4 <;> rw [h4] at hc <;>
    rcases chatStep3_calls e mk p (chatStep2 e (contextString mem1) mk
        (chatStep1 e (contextString mem1))) with h3 | h3 <;> rw [h3] at hc <;>
      rcases chatStep2_calls e (contextString mem1) mk
          (chatStep1 e (contextString mem1)) with h2 | h2 <;> rw [h2] at hc <;>
        rcases chatStep1_calls e (contextString mem1) with h1 | h1 <;>
          rw [h1] at hc <;> simp [List.mem_append] at hc <;> tauto

/-- Step 2 when the previous answer is falsy and the HF API is
configured: exactly one HF API call is appended. -/
theorem chatStep2_invoked (e : Env) (ctx mk : String)
    (prev : Option String × List Call) (hf : answerTruthy prev.1 = false)
    (hc : (truthy (jsOr (hfModelMap e mk) (hfModelMap e "default"))
           && truthy (getVar e "HUGGINGFACE_API_KEY")) = true) :
    chatStep2 e ctx mk prev =
      ((match e.hfApiResult with
        | some s => some s
        | none => prev.1), prev.2 ++ [.hfApi ctx]) := by
  unfold chatStep2
  rw [if_neg (by simp [hf])]
  simp [hc]

/-- Step 3 when the previous answer is falsy and Replicate is
configured with a model for the key: exactly one Replicate chat call is
appended. -/
theorem chatStep3_invoked (e : Env) (mk p : String)
    (prev : Option String × List Call) (hf : answerTruthy prev.1 = false)
    (hrepk : truthy (getVar e "REPLICATE_API_KEY") = true)
    (hrepm : truthy (getVar e (repKeyName mk)) = true) :
    chatStep3 e mk p prev =
      ((match repAnswer e.replicateChatResult with
        | some s => some s
        | none => prev.1), prev.2 ++ [.replicateChat p]) := by
  unfold chatStep3
  rw [if_neg (by simp [hf]), if_pos hrepk, if_pos hrepm]

/-- Step 4 when the previous answer is falsy: the synthesized web
answer. -/
theorem chatStep4_invoked (e : Env) (p : String)
    (prev : Option String × List Call) (hf : answerTruthy prev.1 = false) :
    chatStep4 e p prev = (chatSynth e, prev.2 ++ [.webSynth p]) := by
  unfold chatStep4
  rw [if_neg (by simp [hf])]

/-- Step 1 when the Space is configured. -/
theorem chatStep1_invoked (e : Env) (ctx : String)
    (hs : truthy (getVar e "HF_SPACE_URL") = true) :
    chatStep1 e ctx = (e.hfSpaceResult, [.hfSpace ctx]) := by
  unfold chatStep1
  rw [if_pos hs]

/-! ### Claim theorems -/

/-- C2: memory-store demotion is one-way.  If a `get` or `put` is issued
while the durable store is in use and its Redis operation fails
operationally, that call attempted the durable store, the component
demotes itself, and every subsequent operation — whatever its Redis
health, even `up` — never attempts the durable store again for the rest
of the run. -/
theorem c2_memory_demotion_one_way (ttl : Nat) (st : MemState) (op : MemOp)
    (ops : List MemOp) (hu : st.usingRedis = true) (hd : op.health = .down) :
    (memStep ttl st op).2 = true ∧
    (memStep ttl st op).1.usingRedis = false ∧
    memRun ttl (memStep ttl st op).1 ops = List.replicate ops.length false := by
  have h1 := memStep_down ttl st op hd
  exact ⟨memStep_attempts ttl st op hu, h1, memRun_not_using ttl _ ops h1⟩

/-- C2 witness: a store using Redis, a failing `get`, then an `up` `get`
and an `up` `put` that nevertheless only use the local cache. -/
theorem c2_memory_demotion_one_way_witness :
    (memStep 5 ⟨true, [], []⟩ (.get 0 "7" .down)).2 = true ∧
    (memStep 5 ⟨true, [], []⟩ (.get 0 "7" .down)).1.usingRedis = false ∧
    memRun 5 (memStep 5 ⟨true, [], []⟩ (.get 0 "7" .down)).1
      [.get 1 "7" .up, .put 2 "7" .up [⟨.user, "hi"⟩]] = List.replicate 2 false :=
  c2_memory_demotion_one_way 5 ⟨true, [], []⟩ (.get 0 "7" .down)
    [.get 1 "7" .up, .put 2 "7" .up [⟨.user, "hi"⟩]] rfl rfl

/-- C4: the Memory Store contract.  `put(id, h, ttl)` followed
immediately by `get(id)` returns `h` (via the JSON round trip on the
durable path), and once `ttl` has elapsed with no further put, `get(id)`
returns the empty history — on either backend. -/
theorem c4_memory_put_get_ttl (st : MemState) (now now2 ttl : Nat)
    (id : String) (h : History) (httl : 0 < ttl) :
    (getMemory (saveMemory st now .up id h ttl).1 now .up id).1 = h ∧
    (now + ttl ≤ now2 →
      (getMemory (saveMemory st now .up id h ttl).1 now2 .up id).1 = []) := by
  by_cases hu : st.usingRedis
  · constructor
    · simp [saveMemory, getMemory, hu, redisGetAt, storeSet, storeLookup,
            Nat.lt_add_of_pos_right httl, jsonToHistory_historyToJson]
    · intro hexp
      simp [saveMemory, getMemory, hu, redisGetAt, storeSet, storeLookup,
            Nat.not_lt.mpr hexp]
  · constructor
    · simp [saveMemory, getMemory, hu, cacheGetAt, storeSet, storeLookup,
            Nat.lt_add_of_pos_right httl]
    · intro hexp
      simp [saveMemory, getMemory, hu, cacheGetAt, storeSet, storeLookup,
            Nat.not_lt.mpr hexp]

/-- C4 witness: a concrete put/get round trip and expiry on both
backends. -/
theorem c4_memory_put_get_ttl_witness :
    (getMemory (saveMemory ⟨true, [], []⟩ 0 .up "7" [⟨.user, "hi"⟩] 5).1 0 .up "7").1
      = [⟨.user, "hi"⟩] ∧
    (getMemory (saveMemory ⟨true, [], []⟩ 0 .up "7" [⟨.user, "hi"⟩] 5).1 5 .up "7").1 = [] ∧
    (getMemory (saveMemory ⟨false, [], []⟩ 0 .up "7" [⟨.user, "hi"⟩] 5).1 0 .up "7").1
      = [⟨.user, "hi"⟩] ∧
    (getMemory (saveMemory ⟨false, [], []⟩ 0 .up "7" [⟨.user, "hi"⟩] 5).1 5 .up "7").1 = [] := by
  have hA := c4_memory_put_get_ttl ⟨true, [], []⟩ 0 5 5 "7" [⟨.user, "hi"⟩] (by decide)
  have hB := c4_memory_put_get_ttl ⟨false, [], []⟩ 0 5 5 "7" [⟨.user, "hi"⟩] (by decide)
  exact ⟨hA.1, hA.2 (by decide), hB.1, hB.2 (by decide)⟩

/-- C1 (amended): the chat resolver tries the adapters in the fixed
order HF Space, HF API, Replicate chat, synthesized web answer; a
Failure of one adapter causes the next to be invoked; the first Success
with nonempty normalized text short-circuits, no later adapter is
invoked, and the resolver's result is that adapter's normalized result.
(A Success whose normalized text is empty is treated like a Failure:
the next adapter is invoked — see the counterexample.) -/
theorem c1_chat_fallback_order_amended (e : Env) (mk p : String) (mem1 : History)
    (hspace : truthy (getVar e "HF_SPACE_URL") = true)
    (happi : (truthy (jsOr (hfModelMap e mk) (hfModelMap e "default"))
              && truthy (getVar e "HUGGINGFACE_API_KEY")) = true)
    (hrepk : truthy (getVar e "REPLICATE_API_KEY") = true)
    (hrepm : truthy (getVar e (repKeyName mk)) = true) :
    (answerTruthy e.hfSpaceResult = true →
      chatResolve e mk p mem1 =
        (e.hfSpaceResult.getD "", [.hfSpace (contextString mem1)])) ∧
    (answerTruthy e.hfSpaceResult = false → answerTruthy e.hfApiResult = true →
      chatResolve e mk p mem1 =
        (e.hfApiResult.getD "",
         [.hfSpace (contextString mem1), .hfApi (contextString mem1)])) ∧
    (answerTruthy e.hfSpaceResult = false → answerTruthy e.hfApiResult = false →
      answerTruthy (repAnswer e.replicateChatResult) = true →
      chatResolve e mk p mem1 =
        ((repAnswer e.replicateChatResult).getD "",
         [.hfSpace (contextString mem1), .hfApi (contextString mem1),
          .replicateChat p])) ∧
    (answerTruthy e.hfSpaceResult = false → answerTruthy e.hfApiResult = false →
      answerTruthy (repAnswer e.replicateChatResult) = false →
      (chatResolve e mk p mem1).2 =
        [.hfSpace (contextString mem1), .hfApi (contextString mem1),
         .replicateChat p, .webSynth p]) := by
  refine ⟨?_, ?_, ?_, ?_⟩
  · intro h1
    unfold chatResolve
    rw [chatStep1_invoked e _ hspace]
    unfold chatStep4 chatStep3 chatStep2
    simp [h1]
  · intro h1 h2
    cases hr : e.hfApiResult with
    | none => rw [hr] at h2; simp [answerTruthy] at h2
    | some s =>
        unfold chatResolve
        rw [chatStep1_invoked e _ hspace,
            chatStep2_invoked e _ mk _ h1 happi, hr]
        rw [hr] at h2
        unfold chatStep4 chatStep3
        simp [h2, hr]
  · intro h1 h2 h3
    cases hx : repAnswer e.replicateChatResult with
    | none => rw [hx] at h3; simp [answerTruthy] at h3
    | some s =>
        unfold chatResolve
        rw [chatStep1_invoked e _ hspace,
            chatStep2_invoked e _ mk _ h1 happi]
        have hf2 : answerTruthy (match e.hfApiResult with
            | some s => some s
            | none => e.hfSpaceResult) = false := by
          cases hr : e.hfApiResult with
          | none => exact h1
          | some t => rw [hr] at h2; exact h2
        rw [chatStep3_invoked e mk p _ hf2 hrepk hrepm, hx]
        rw [hx] at h3
        unfold chatStep4
        simp [h3, hx]
  · intro h1 h2 h3
    unfold chatResolve
    rw [chatStep1_invoked e _ hspace,
        chatStep2_invoked e _ mk _ h1 happi]
    have hf2 : answerTruthy (match e.hfApiResult with
        | some s => some s
        | none => e.hfSpaceResult) = false := by
      cases hr : e.hfApiResult with
      | none => exact h1
      | some t => rw [hr] at h2; exact h2
    rw [chatStep3_invoked e mk p _ hf2 hrepk hrepm]
    have hf3 : answerTruthy (match repAnswer e.replicateChatResult with
        | some s => some s
        | none => (match e.hfApiResult with
                   | some s => some s
                   | none => e.hfSpaceResult)) = false := by
      cases hx : repAnswer e.replicateChatResult with
      | none => exact hf2
      | some t => rw [hx] at h3; exact h3
    rw [chatStep4_invoked e p _ hf3]
    simp

/-- C1 counterexample: the claim's short-circuit fails on an empty-text
Success.  With every provider configured, the HF Space adapter returns
a Success (the empty string), yet the next adapter (the HF API) is
still invoked and the resolver's result is the API's `"4"`, not the
Space's result. -/
theorem c1_chat_fallback_order_counterexample :
    envC1.hfSpaceResult = some "" ∧
    chatResolve envC1 "llama2" "hi" [⟨.user, "hi"⟩] =
      ("4", [.hfSpace "user: hi", .hfApi "user: hi"]) := by
  exact ⟨rfl, by decide⟩

/-- C1 witness: with the Space and the API failing and Replicate
succeeding, the three adapters are invoked in order and the result is
Replicate's normalized output. -/
theorem c1_chat_fallback_order_witness :
    chatResolve envC1w "llama2" "hi" [⟨.user, "hi"⟩] =
      ((repAnswer envC1w.replicateChatResult).getD "",
       [.hfSpace (contextString [⟨.user, "hi"⟩]),
        .hfApi (contextString [⟨.user, "hi"⟩]), .replicateChat "hi"]) :=
  (c1_chat_fallback_order_amended envC1w "llama2" "hi" [⟨.user, "hi"⟩]
    rfl rfl rfl rfl).2.2.1 rfl rfl rfl

/-- C5: exhaustion and unavailability produce the sentinel, never an
absent result.  (i) If every chat adapter's outcome is falsy and both
web lookups yield nothing, the chat resolver returns the fixed
"No provider available to answer this question." text.  (ii) A media
request whose submode matches no configured provider yields the fixed
"No provider configured for that media mode." reply with zero adapter
invocations.  (iii) The chat resolver always returns a nonempty answer
string. -/
theorem c5_no_provider_sentinel :
    (∀ (e : Env) (mk p : String) (mem1 : History),
        answerTruthy e.hfSpaceResult = false →
        answerTruthy e.hfApiResult = false →
        answerTruthy (repAnswer e.replicateChatResult) = false →
        truthy e.wikiAnswer = false →
        truthy e.duckAnswer = false →
        (chatResolve e mk p mem1).1 =
          "No provider available to answer this question.") ∧
    (∀ (e : Env) (parts : List String),
        mediaSub parts ≠ "" → mediaPayload parts ≠ "" →
        ¬ (mediaSub parts ∈ runwayModes ∧ truthy (getVar e "RUNWAY_API_KEY") = true) →
        ¬ (mediaSub parts ∈ repModes ∧ truthy (getVar e "REPLICATE_API_KEY") = true) →
        mediaBranch e parts =
          ⟨.text ( withPrefix "No provider configured for that media mode."), [], none⟩) ∧
    (∀ (e : Env) (mk p : String) (mem1 : History),
        (chatResolve e mk p mem1).1 ≠ "") := by
  refine ⟨?_, ?_, ?_⟩
  · intro e mk p mem1 h1 h2 h3 hw hd
    unfold chatResolve
    exact chatStep4_sentinel e p _
      (chatStep3_falsy e mk p _
        (chatStep2_falsy e _ mk _ (chatStep1_falsy e _ h1) h2) h3) hw hd
  · intro e parts hs hp h3 h4
    simp only [mediaBranch]
    rw [if_neg (not_or.mpr ⟨hs, hp⟩), if_neg h3, if_neg h4]
  · intro e mk p mem1
    unfold chatResolve
    exact chatStep4_ne_empty e p _

/-- C5 witness: all chat adapters fail and both lookups reject, giving
the chat sentinel; `/ai media bogus somepayload` with no matching
provider gives the media sentinel with zero invocations. -/
theorem c5_no_provider_sentinel_witness :
    (chatResolve envC5 "llama2" "q" [⟨.user, "q"⟩]).1 =
      "No provider available to answer this question." ∧
    mediaBranch envC5 ["media", "bogus", "somepayload"] =
      ⟨.text ( withPrefix "No provider configured for that media mode."), [], none⟩ :=
  ⟨c5_no_provider_sentinel.1 envC5 "llama2" "q" [⟨.user, "q"⟩] rfl rfl rfl rfl rfl,
   c5_no_provider_sentinel.2.1 envC5 ["media", "bogus", "somepayload"]
     (by decide) (by decide) (by decide) (by decide)⟩

/-- C6 (amended): during a chat resolution the hosted-inference space
and the keyed inference API receive the concatenated conversation
transcript as their input, but the managed-compute (Replicate) chat
adapter and the synthesized web lookup receive only the bare new
prompt. -/
theorem c6_adapter_context_amended (e : Env) (mk p : String) (mem1 : History) :
    (∀ s, Call.hfSpace s ∈ (chatResolve e mk p mem1).2 → s = contextString mem1) ∧
    (∀ s, Call.hfApi s ∈ (chatResolve e mk p mem1).2 → s = contextString mem1) ∧
    (∀ s, Call.replicateChat s ∈ (chatResolve e mk p mem1).2 → s = p) ∧
    (∀ s, Call.webSynth s ∈ (chatResolve e mk p mem1).2 → s = p) := by
  refine ⟨?_, ?_, ?_, ?_⟩ <;> intro s hs <;>
    rcases chatResolve_calls_mem e mk p mem1 _ hs with h | h | h | h <;> simp_all

/-- C6 counterexample: with a prior transcript, the Replicate chat
adapter is invoked with the bare prompt `"hi"`, which differs from the
concatenated transcript it should have received per the claim. -/
theorem c6_adapter_context_counterexample :
    Call.replicateChat "hi" ∈ (chatResolve envC6 "llama2" "hi" [⟨.user, "hi"⟩]).2 ∧
    contextString [⟨.user, "hi"⟩] ≠ "hi" := by
  exact ⟨by decide, by decide⟩

/-- C6 witness: the Space invocation in a concrete resolution carries
exactly the concatenated transcript. -/
theorem c6_adapter_context_witness :
    "user: hi" = contextString [⟨.user, "hi"⟩] ∧ "hi" = "hi" :=
  ⟨(c6_adapter_context_amended envC6 "llama2" "hi" [⟨.user, "hi"⟩]).1
      "user: hi" (by decide),
   (c6_adapter_context_amended envC6 "llama2" "hi" [⟨.user, "hi"⟩]).2.2.1
      "hi" (by decide)⟩

/-- C3: every chat request with a nonempty parsed prompt appends
exactly two turns to the prior history — the user turn with the new
prompt and the assistant turn with the resolved answer — persists the
resulting history, and replies with the banner-prefixed answer text. -/
theorem c3_chat_appends_two_turns (e : Env) (parts : List String) (rest : String)
    (hp : (chatParse e parts rest).2 ≠ "") :
    chatBranch e parts rest =
      { reply := .text ( withPrefix (chatResolve e (chatParse e parts rest).1
            (chatParse e parts rest).2
            (e.priorMem ++ [⟨.user, (chatParse e parts rest).2⟩])).1),
        calls := (chatResolve e (chatParse e parts rest).1
            (chatParse e parts rest).2
            (e.priorMem ++ [⟨.user, (chatParse e parts rest).2⟩])).2,
        saved := some (e.priorMem ++ [⟨.user, (chatParse e parts rest).2⟩,
          ⟨.assistant, (chatResolve e (chatParse e parts rest).1
            (chatParse e parts rest).2
            (e.priorMem ++ [⟨.user, (chatParse e parts rest).2⟩])).1⟩]) } := by
  simp only [chatBranch]
  rw [if_neg hp]
  simp

/-- C3 witness: the specification's chat happy path.  `/ai chat`-parsed
tokens `["chat", "hi"]` with the Space answering `"4"`: the saved
history is exactly the user turn and the assistant turn, and the reply
is the banner-prefixed `"4"`. -/
theorem c3_chat_appends_two_turns_witness :
    chatBranch envC3 ["chat", "hi"] "hi" =
      { reply := .text "Belaynish\n\n4",
        calls := [.hfSpace "user: hi"],
        saved := some [⟨.user, "hi"⟩, ⟨.assistant, "4"⟩] } := by
  rw [c3_chat_appends_two_turns envC3 ["chat", "hi"] "hi" (by decide)]
  decide

/-- C7 (amended): when none of the recognized fields is present in the
HF API response, the adapter does not fail: it returns the
`JSON.stringify` of the raw payload truncated to 4000 characters as its
(Success) result. -/
theorem c7_hf_api_unrecognized_amended (d : Json)
    (h : hfRecognized d = false) :
    callHfApi d = .str (jsSlice 4000 (stringifyJson d)) := by
  cases d with
  | str s => simp [hfRecognized] at h
  | null => rfl
  | bool b => rfl
  | num n => rfl
  | arr xs =>
      simp only [hfRecognized, Bool.or_eq_false_iff] at h
      simp only [callHfApi]
      rw [if_neg (by simp [h.1.1.2]), if_neg (by simp [getFieldJ, optTruthyJ]),
          if_neg (by simp [getFieldJ, optTruthyJ])]
  | obj fs =>
      simp only [hfRecognized, Bool.or_eq_false_iff] at h
      simp only [callHfApi]
      rw [if_neg (by simp [optTruthyJ]), if_neg (by simp [h.1.2]),
          if_neg (by simp [h.2])]

/-- C7 counterexample: a response with none of the recognized fields
(for example `\x7b"error": "rate limited"\x7d`) is not treated as a
Failure: the adapter returns the truncated stringified payload as its
result. -/
theorem c7_hf_api_unrecognized_counterexample :
    hfRecognized (.obj [("error", .str "rate limited")]) = false ∧
    callHfApi (.obj [("error", .str "rate limited")]) =
      .str "\x7b\"error\":\"rate limited\"\x7d" :=
  ⟨rfl, rfl⟩

/-- C7 witness: the amended behavior at a concrete unrecognized
payload. -/
theorem c7_hf_api_unrecognized_witness :
    callHfApi (.obj [("status", .str "loading")]) =
      .str (jsSlice 4000 (stringifyJson (.obj [("status", .str "loading")]))) :=
  c7_hf_api_unrecognized_amended (.obj [("status", .str "loading")]) rfl

/-- C9: an `/ai` command with an unknown mode or a missing required
argument is answered immediately with a fixed banner-prefixed usage
message, with zero provider invocations, no resolver pass and no
memory write: (i) no tokens at all, (ii) an empty free-text argument,
(iii) an unknown mode keyword, (iv) chat with an empty parsed prompt,
(v) media with a missing submode or payload, (vi) replicate with a
missing model key or prompt. -/
theorem c9_usage_no_invocation :
    (∀ (e : Env) (msg : String), aiParts msg = [] →
      aiHandler e msg =
        ⟨.text ( withPrefix "Usage: /ai <mode> <input>\nModes: chat|wiki|duck|translate|media|tts|replicate"),
         [], none⟩) ∧
    (∀ (e : Env) (msg : String), aiParts msg ≠ [] → aiRest msg = "" →
      aiMode msg ≠ "help" →
      aiHandler e msg =
        ⟨.text ( withPrefix "Please provide input. Example: /ai chat Explain Newton laws"),
         [], none⟩) ∧
    (∀ (e : Env) (msg : String), aiParts msg ≠ [] → aiRest msg ≠ "" →
      aiMode msg ∉ (["help", "chat", "wiki", "duck", "translate", "tts",
        "media", "replicate"] : List String) →
      aiHandler e msg =
        ⟨.text ( withPrefix "Unknown mode. Type /ai help for usage."), [], none⟩) ∧
    (∀ (e : Env) (msg : String), aiMode msg = "chat" → aiRest msg ≠ "" →
      (chatParse e (aiParts msg) (aiRest msg)).2 = "" →
      aiHandler e msg =
        ⟨.text ( withPrefix "Please provide a prompt for chat."), [], none⟩) ∧
    (∀ (e : Env) (msg : String), aiMode msg = "media" → aiRest msg ≠ "" →
      (mediaSub (aiParts msg) = "" ∨ mediaPayload (aiParts msg) = "") →
      aiHandler e msg =
        ⟨.text ( withPrefix "Usage: /ai media <mode> <input>. Type /ai help for modes."),
         [], none⟩) ∧
    (∀ (e : Env) (msg : String), aiMode msg = "replicate" → aiRest msg ≠ "" →
      (((aiParts msg).get? 1).getD "" = "" ∨ jsJoinSpace ((aiParts msg).drop 2) = "") →
      aiHandler e msg =
        ⟨.text ( withPrefix "Usage: /ai replicate <env_model_variable> <prompt>"),
         [], none⟩) := by
  refine ⟨?_, ?_, ?_, ?_, ?_, ?_⟩
  · intro e msg hnil
    simp only [aiHandler, aiHandlerParts]
    rw [if_pos hnil]
  · intro e msg hns hr hm
    simp only [aiHandler, aiHandlerParts]
    rw [if_neg hns, if_pos ⟨hr, hm⟩]
  · intro e msg hns hr hm
    simp only [List.mem_cons, List.mem_singleton, not_or] at hm
    obtain ⟨m1, m2, m3, m4, m5, m6, m7, m8, -⟩ := hm
    simp only [aiMode] at m1 m2 m3 m4 m5 m6 m7 m8
    simp only [aiHandler, aiHandlerParts]
    rw [if_neg hns, if_neg (fun hc => hr hc.1), if_neg m1, if_neg m2, if_neg m3,
        if_neg m4, if_neg m5, if_neg m6, if_neg m7, if_neg m8]
  · intro e msg hm hr hp
    have hm' : jsToLower ((aiParts msg).headD "") = "chat" := hm
    have hns : aiParts msg ≠ [] := by
      intro hnil
      rw [hnil] at hm'
      exact absurd hm' (by decide)
    have k1 : ¬ (jsToLower ((aiParts msg).headD "") = "help") := by rw [hm']; decide
    simp only [aiRest] at hp
    simp only [aiHandler, aiHandlerParts]
    rw [if_neg hns, if_neg (fun hc => hr hc.1), if_neg k1, if_pos hm']
    simp only [chatBranch]
    rw [if_pos hp]
  · intro e msg hm hr hsp
    have hm' : jsToLower ((aiParts msg).headD "") = "media" := hm
    have hns : aiParts msg ≠ [] := by
      intro hnil
      rw [hnil] at hm'
      exact absurd hm' (by decide)
    have k1 : ¬ (jsToLower ((aiParts msg).headD "") = "help") := by rw [hm']; decide
    have k2 : ¬ (jsToLower ((aiParts msg).headD "") = "chat") := by rw [hm']; decide
    have k3 : ¬ (jsToLower ((aiParts msg).headD "") = "wiki") := by rw [hm']; decide
    have k4 : ¬ (jsToLower ((aiParts msg).headD "") = "duck") := by rw [hm']; decide
    have k5 : ¬ (jsToLower ((aiParts msg).headD "") = "translate") := by rw [hm']; decide
    have k6 : ¬ (jsToLower ((aiParts msg).headD "") = "tts") := by rw [hm']; decide
    simp only [aiHandler, aiHandlerParts]
    rw [if_neg hns, if_neg (fun hc => hr hc.1), if_neg k1, if_neg k2, if_neg k3,
        if_neg k4, if_neg k5, if_neg k6, if_pos hm']
    simp only [mediaBranch]
    rw [if_pos hsp]
  · intro e msg hm hr hkp
    have hm' : jsToLower ((aiParts msg).headD "") = "replicate" := hm
    have hns : aiParts msg ≠ [] := by
      intro hnil
      rw [hnil] at hm'
      exact absurd hm' (by decide)
    have k1 : ¬ (jsToLower ((aiParts msg).headD "") = "help") := by rw [hm']; decide
    have k2 : ¬ (jsToLower ((aiParts msg).headD "") = "chat") := by rw [hm']; decide
    have k3 : ¬ (jsToLower ((aiParts msg).headD "") = "wiki") := by rw [hm']; decide
    have k4 : ¬ (jsToLower ((aiParts msg).headD "") = "duck") := by rw [hm']; decide
    have k5 : ¬ (jsToLower ((aiParts msg).headD "") = "translate") := by rw [hm']; decide
    have k6 : ¬ (jsToLower ((aiParts msg).headD "") = "tts") := by rw [hm']; decide
    have k7 : ¬ (jsToLower ((aiParts msg).headD "") = "media") := by rw [hm']; decide
    simp only [aiHandler, aiHandlerParts]
    rw [if_neg hns, if_neg (fun hc => hr hc.1), if_neg k1, if_neg k2, if_neg k3,
        if_neg k4, if_neg k5, if_neg k6, if_neg k7, if_pos hm']
    simp only [replicateBranch]
    rw [if_pos hkp]

/-- C9 witness: `/ai`, `/ai chat` (missing argument) and
`/ai nonsense xyz` (unknown mode) each get the fixed usage reply with
zero invocations. -/
theorem c9_usage_no_invocation_witness :
    aiHandler envC9 "/ai" =
      ⟨.text ( withPrefix "Usage: /ai <mode> <input>\nModes: chat|wiki|duck|translate|media|tts|replicate"),
       [], none⟩ ∧
    aiHandler envC9 "/ai chat" =
      ⟨.text ( withPrefix "Please provide input. Example: /ai chat Explain Newton laws"),
       [], none⟩ ∧
    aiHandler envC9 "/ai nonsense xyz" =
      ⟨.text ( withPrefix "Unknown mode. Type /ai help for usage."), [], none⟩ :=
  ⟨c9_usage_no_invocation.1 envC9 "/ai" (by decide),
   c9_usage_no_invocation.2.1 envC9 "/ai chat" (by decide) (by decide) (by decide),
   c9_usage_no_invocation.2.2.1 envC9 "/ai nonsense xyz" (by decide) (by decide)
     (by decide)⟩

/-- C10: in translate mode the first whitespace token of the argument
is consumed as the target language code exactly when the argument has
more than one token and that first token has (UTF-16) length at most 3
— it is then excluded from the translated text — while otherwise (in
particular for any single-token argument, however short) the whole
argument is translated with target language `"en"`. -/
theorem c10_translate_lang_token (e : Env) (msg : String)
    (hm : aiMode msg = "translate") (hr : aiRest msg ≠ "") :
    ((jsSplitSpace (aiRest msg)).length > 1 ∧
        jsLen ((jsSplitSpace (aiRest msg)).headD "") ≤ 3 →
      aiHandler e msg =
        ⟨.text ( withPrefix (translateUnofficial e.translateResult
            (jsJoinSpace ((jsSplitSpace (aiRest msg)).drop 1))
            ((jsSplitSpace (aiRest msg)).headD ""))),
         [.translateCall (jsJoinSpace ((jsSplitSpace (aiRest msg)).drop 1))
            ((jsSplitSpace (aiRest msg)).headD "")], none⟩) ∧
    (¬ ((jsSplitSpace (aiRest msg)).length > 1 ∧
        jsLen ((jsSplitSpace (aiRest msg)).headD "") ≤ 3) →
      aiHandler e msg =
        ⟨.text ( withPrefix (translateUnofficial e.translateResult (aiRest msg) "en")),
         [.translateCall (aiRest msg) "en"], none⟩) := by
  have hm' : jsToLower ((aiParts msg).headD "") = "translate" := hm
  have hns : aiParts msg ≠ [] := by
    intro hnil
    rw [hnil] at hm'
    exact absurd hm' (by decide)
  have k1 : ¬ (jsToLower ((aiParts msg).headD "") = "help") := by rw [hm']; decide
  have k2 : ¬ (jsToLower ((aiParts msg).headD "") = "chat") := by rw [hm']; decide
  have k3 : ¬ (jsToLower ((aiParts msg).headD "") = "wiki") := by rw [hm']; decide
  have k4 : ¬ (jsToLower ((aiParts msg).headD "") = "duck") := by rw [hm']; decide
  have hroute : aiHandler e msg =
      translateBranch e (jsTrim (jsJoinSpace ((aiParts msg).drop 1))) := by
    simp only [aiHandler, aiHandlerParts]
    rw [if_neg hns, if_neg (fun hc => hr hc.1), if_neg k1, if_neg k2, if_neg k3,
        if_neg k4, if_pos hm']
  refine ⟨?_, ?_⟩
  · intro hc
    simp only [aiRest] at hc
    rw [hroute]
    simp only [translateBranch]
    rw [if_pos hc]
    simp only [aiRest]
  · intro hc
    simp only [aiRest] at hc
    rw [hroute]
    simp only [translateBranch]
    rw [if_neg hc]
    simp only [aiRest]

/-- C10 witness: `/ai translate how are you` silently consumes `"how"`
as the language code and translates only `"are you"`, while the
single-token `/ai translate hi` translates `"hi"` in full to English. -/
theorem c10_translate_lang_token_witness :
    aiHandler envC10 "/ai translate how are you" =
      ⟨.text ( withPrefix "T"), [.translateCall "are you" "how"], none⟩ ∧
    aiHandler envC10 "/ai translate hi" =
      ⟨.text ( withPrefix "T"), [.translateCall "hi" "en"], none⟩ := by
  constructor
  · rw [(c10_translate_lang_token envC10 "/ai translate how are you"
      (by decide) (by decide)).1 (by decide)]
    decide
  · rw [(c10_translate_lang_token envC10 "/ai translate hi"
      (by decide) (by decide)).2 (by decide)]
    decide

/-- C8: translation never fails the request.  For every library outcome,
input text and target language code, `translateUnofficial` returns a
string that is either the original input text unchanged (the failure
path) or exactly the library's translated text (the success path); the
function is total, so nothing is thrown past its boundary. -/
theorem c8_translate_never_fails (libResult : Option String)
    (text lang : String) :
    translateUnofficial libResult text lang = text ∨
    libResult = some (translateUnofficial libResult text lang) := by
  cases libResult <;> simp [translateUnofficial]

end Belaynish
